import Mathlib

/-!
Shallow embedding of `intake/catalog/entry.py` (class `CatalogEntry`) and
proofs about its entry-resolution / persistence-decision protocol.

Modelling conventions:
* Python strings are Lean `String`s; the source's `is` / `is not` comparisons
  on interned mode literals are modelled as value equality.
* `time.time()` and the metadata fields `ttl` / `timestamp` are modelled as
  exact integers (`env.now : Int`); `ttl` may be `none` (Python `None`) and a
  `ttl` of `some 0` or `none` is falsy, mirroring `not met['ttl']`.
* Object allocation and the external persistence store are modelled by an
  environment `Env`; calls to `get`, `get_persisted` and `store.refresh` are
  recorded in an event trace threaded through a state `St`, and each `get`
  invocation consumes a fresh allocation index, so "builds a new source" and
  "never consults the store" are expressible.
* Exceptions are modelled with `Except`: `ValueError` raised by `__call__`
  and `__iter__`, `AttributeError` from forwarded attribute lookup (the
  spec's `InvalidArgument`, `InvalidOperation`, `AttributeNotFound`).
-/

namespace Intake

/-- Metadata of a persisted replica: `met['ttl']` (possibly `None`) and
`met['timestamp']`, as read by `CatalogEntry.__call__`. -/
structure Metadata where
  ttl : Option Int
  timestamp : Int

/-- An index passed to `__getitem__`: either a single key or a tuple of keys
(the source distinguishes `isinstance(item, tuple)`). -/
inductive Item where
  | key (k : Nat)
  | tup (ks : List Nat)
deriving DecidableEq

/-- A generic Python object reachable through item access: either an atom or a
node whose own `__getitem__` maps an `Item` to another object (or fails). -/
inductive Obj where
  | atom (n : Nat)
  | node (f : Item → Option Obj)

/-- `__getitem__` of a generic object: atoms are not subscriptable. -/
def Obj.getitem : Obj → Item → Option Obj
  | Obj.atom _, _ => none
  | Obj.node f, it => f it

/-- A GUI handle (`EntryGUI`, or a `_gui` object exposed by a source). -/
structure GUI where
  id : Nat
  visible : Bool
deriving DecidableEq

/-- A data source as produced by `get`, `get_persisted` or `store.refresh`:
its identity, its `has_been_persisted` flag, its `metadata`, its attribute
table, its `__getitem__`, its iterator contents, and the `_gui` attribute it
exposes, if any (probed by `hasattr(self, '_gui')` through the entry's
`__getattr__` fallback). -/
structure Source where
  sid : Nat
  hasBeenPersisted : Bool
  metadata : Metadata
  attrs : String → Option Nat
  getitem : Item → Option Obj
  iterItems : List Nat
  guiAttr : Option GUI

/-- The catalog entry: its persistence mode `_pmode`, its `_container`, the
names defined on the entry itself (instance and class attributes, as seen by
ordinary attribute lookup), and the `_gui` cache slot. -/
structure Entry where
  name : String
  pmode : String
  container : String
  selfAttrs : String → Option Nat
  gui : Option GUI

/-- External collaborators: `mkSource n kwargs` is the source object built by
the n-th invocation of `get` (fresh allocation per call), `get_persisted` and
`refresh` are the persistence store, `now` is `time.time()`. -/
structure Env where
  mkSource : Nat → List (String × Nat) → Source
  get_persisted : Source → Source
  refresh : Source → Source
  now : Int

/-- Observable events: an invocation of `get(**kwargs)`, a fetch of the
persisted replica of a source, a `store.refresh` of a replica. -/
inductive Event where
  | getEv (kwargs : List (String × Nat))
  | getPersistedEv (sid : Nat)
  | refreshEv (sid : Nat)
deriving DecidableEq

/-- Threaded state: number of `get` invocations so far (allocation counter)
and the trace of events. -/
structure St where
  nGet : Nat
  events : List Event
deriving DecidableEq

/-- Python exceptions raised by the embedded methods. `valueError` is the
spec's `InvalidArgument` / `InvalidOperation`; `attributeError` is the spec's
`AttributeNotFound`. -/
inductive PyErr where
  | valueError (msg : String)
  | attributeError (name : String)
  | keyError
  | indexError
deriving DecidableEq

/-- `self.get(**kwargs)`: builds a fresh source and records the invocation. -/
def doGet (env : Env) (kwargs : List (String × Nat)) (st : St) : Source × St :=
  (env.mkSource st.nGet kwargs,
   { nGet := st.nGet + 1, events := st.events ++ [Event.getEv kwargs] })

/-- `s.get_persisted()`: consults the store and records the consultation. -/
def doGetPersisted (env : Env) (s : Source) (st : St) : Source × St :=
  (env.get_persisted s, { st with events := st.events ++ [Event.getPersistedEv s.sid] })

/-- `store.refresh(s2)`: refreshes the replica and records the refresh. -/
def doRefresh (env : Env) (s2 : Source) (st : St) : Source × St :=
  (env.refresh s2, { st with events := st.events ++ [Event.refreshEv s2.sid] })

/-- Python truthiness of `met['ttl']`: falsy iff `None` or `0`. -/
def ttlFalsy : Option Int → Bool
  | none => true
  | some t => t == 0

/-- Body of `CatalogEntry.__call__` after mode resolution (entry.py lines
102-112), with `persist` the resolved effective mode. -/
def callBody (env : Env) (persist : String) (kwargs : List (String × Nat)) (st : St) :
    Except PyErr Source × St :=
  let p1 := doGet env kwargs st
  let s := p1.1
  let st1 := p1.2
  if s.hasBeenPersisted = true ∧ persist ≠ "never" then
    let p2 := doGetPersisted env s st1
    let s2 := p2.1
    let st2 := p2.2
    if persist = "always" ∨ ttlFalsy s2.metadata.ttl = true then
      (Except.ok s2, st2)
    else if s2.metadata.ttl.getD 0 < env.now - s2.metadata.timestamp then
      (Except.ok s2, st2)
    else
      let p3 := doRefresh env s2 st2
      (Except.ok p3.1, p3.2)
  else (Except.ok s, st1)

/-- `CatalogEntry.__call__(persist=persist0, **kwargs)` (entry.py lines
86-112): validate the override, resolve `persist = persist or self._pmode`
(every valid override string is truthy, so `or` keeps it), then run the
persistence decision. -/
def Entry.call (env : Env) (e : Entry) (persist0 : Option String)
    (kwargs : List (String × Nat)) (st : St) : Except PyErr Source × St :=
  match persist0 with
  | some p =>
    if p = "always" ∨ p = "never" ∨ p = "default" then
      callBody env p kwargs st
    else
      (Except.error (PyErr.valueError ("Persist value (" ++ p ++ ") not understood")), st)
  | none => callBody env e.pmode kwargs st

/-- `CatalogEntry._get_default_source` (entry.py lines 114-116): simply
`return self()` — no caching in the code. -/
def Entry.getDefaultSource (env : Env) (e : Entry) (st : St) : Except PyErr Source × St :=
  Entry.call env e none [] st

/-- The `has_been_persisted` property (entry.py lines 118-121): a property
getter receives only `self`, so its declared `**kwargs` is always empty; it
calls `self.get()` directly and reads the live source's flag. -/
def Entry.hasBeenPersistedProp (env : Env) (e : Entry) (st : St) : Bool × St :=
  let p := doGet env [] st
  (p.1.hasBeenPersisted, p.2)

/-- Combined attribute lookup on an entry (ordinary lookup plus
`CatalogEntry.__getattr__`, entry.py lines 150-154): a name defined on the
entry is returned directly; otherwise the lookup is forwarded to the default
source, and a miss there raises `AttributeError`. -/
def Entry.getattrE (env : Env) (e : Entry) (attr : String) (st : St) :
    Except PyErr Nat × St :=
  match e.selfAttrs attr with
  | some v => (Except.ok v, st)
  | none =>
    let p := Entry.getDefaultSource env e st
    match p.1 with
    | Except.error err => (Except.error err, p.2)
    | Except.ok ds =>
      match ds.attrs attr with
      | some v => (Except.ok v, p.2)
      | none => (Except.error (PyErr.attributeError attr), p.2)

/-- `CatalogEntry.__iter__` (entry.py lines 162-167). -/
def Entry.iterE (env : Env) (e : Entry) (st : St) : Except PyErr (List Nat) × St :=
  if e.container = "catalog" then
    let p := Entry.getDefaultSource env e st
    match p.1 with
    | Except.error err => (Except.error err, p.2)
    | Except.ok ds => (Except.ok ds.iterItems, p.2)
  else (Except.error (PyErr.valueError "Cannot iterate a catalog entry"), st)

/-- Single-key branch of `CatalogEntry.__getitem__`: the default source's
`__getitem__` applied to the key. -/
def Entry.getitemSingle (env : Env) (e : Entry) (k : Nat) (st : St) :
    Except PyErr Obj × St :=
  let p := Entry.getDefaultSource env e st
  match p.1 with
  | Except.error err => (Except.error err, p.2)
  | Except.ok ds =>
    match ds.getitem (Item.key k) with
    | none => (Except.error PyErr.keyError, p.2)
    | some o => (Except.ok o, p.2)

/-- `CatalogEntry.__getitem__` (entry.py lines 169-180): a tuple of length
greater than one applies the first key to the default source and passes the
remaining keys, as one tuple, to the resulting object's `__getitem__`; a
one-element tuple collapses to its key; an empty tuple hits `item[0]` and
raises `IndexError`. -/
def Entry.getitemE (env : Env) (e : Entry) (item : Item) (st : St) :
    Except PyErr Obj × St :=
  match item with
  | Item.tup (k :: k2 :: rest) =>
    let p := Entry.getDefaultSource env e st
    match p.1 with
    | Except.error err => (Except.error err, p.2)
    | Except.ok ds =>
      match ds.getitem (Item.key k) with
      | none => (Except.error PyErr.keyError, p.2)
      | some o =>
        match o.getitem (Item.tup (k2 :: rest)) with
        | none => (Except.error PyErr.keyError, p.2)
        | some o2 => (Except.ok o2, p.2)
  | Item.tup [] => (Except.error PyErr.indexError, st)
  | Item.tup [k] => Entry.getitemSingle env e k st
  | Item.key k => Entry.getitemSingle env e k st

/-- The `gui` property (entry.py lines 185-192). `hasattr(self, '_gui')` is
ordinary attribute lookup: if the `_gui` slot is set it is found directly; if
not, the class's `__getattr__` fires and forwards `_gui` to a freshly built
default source (running `get` and the whole persistence decision), so
`hasattr` is true exactly when that source exposes a `_gui` attribute.
* Slot set: the else branch mutates the cached handle's `visible` to true and
  returns it; no source is built.
* Slot unset, built source lacks `_gui`: `hasattr` sees the forwarded
  `AttributeError`, so `EntryGUI(source=self, visible=True)` (identity
  `freshId`) is constructed, stored in the slot, and returned from the slot.
* Slot unset, built source exposes `_gui`: the else branch's read of
  `self._gui` forwards through a second default source and sets `visible` on
  that freshly built object (a mutation of an object owned by the discarded
  source, modelled as a dropped value update), and `return self._gui`
  forwards through a third default source, whose `_gui` is returned — the
  entry caches nothing; a missing `_gui` on either of those sources raises
  `AttributeError`. -/
def Entry.guiProp (env : Env) (e : Entry) (freshId : Nat) (st : St) :
    Except PyErr GUI × Entry × St :=
  match e.gui with
  | some g =>
    let g2 : GUI := { g with visible := true }
    (Except.ok g2, { e with gui := some g2 }, st)
  | none =>
    let p1 := Entry.getDefaultSource env e st
    match p1.1 with
    | Except.error err => (Except.error err, e, p1.2)
    | Except.ok ds1 =>
      match ds1.guiAttr with
      | none =>
        let g : GUI := { id := freshId, visible := true }
        (Except.ok g, { e with gui := some g }, p1.2)
      | some _ =>
        let p2 := Entry.getDefaultSource env e p1.2
        match p2.1 with
        | Except.error err => (Except.error err, e, p2.2)
        | Except.ok ds2 =>
          match ds2.guiAttr with
          | none => (Except.error (PyErr.attributeError "_gui"), e, p2.2)
          | some _ =>
            let p3 := Entry.getDefaultSource env e p2.2
            match p3.1 with
            | Except.error err => (Except.error err, e, p3.2)
            | Except.ok ds3 =>
              match ds3.guiAttr with
              | none => (Except.error (PyErr.attributeError "_gui"), e, p3.2)
              | some g3 => (Except.ok g3, e, p3.2)

/-- Validity of the `persist` override, as checked on entry.py lines 98-100. -/
def validOverrideB : Option String → Bool
  | none => true
  | some p => p = "always" ∨ p = "never" ∨ p = "default"

/-- The effective persistence mode: `persist or self._pmode`. -/
def effMode (e : Entry) : Option String → String
  | none => e.pmode
  | some p => p

theorem call_valid (env : Env) (e : Entry) (p0 : Option String)
    (kwargs : List (String × Nat)) (st : St) (hv : validOverrideB p0 = true) :
    Entry.call env e p0 kwargs st = callBody env (effMode e p0) kwargs st := by
  cases p0 with
  | none => rfl
  | some p =>
    simp only [validOverrideB, decide_eq_true_eq] at hv
    simp [Entry.call, effMode, hv]

theorem callBody_ok (env : Env) (m : String) (kwargs : List (String × Nat)) (st : St) :
    ∃ s, (callBody env m kwargs st).1 = Except.ok s := by
  unfold callBody
  dsimp only
  split_ifs <;> exact ⟨_, rfl⟩

theorem getDefaultSource_ok (env : Env) (e : Entry) (st : St) :
    ∃ ds, (Entry.getDefaultSource env e st).1 = Except.ok ds := by
  unfold Entry.getDefaultSource Entry.call
  exact callBody_ok env e.pmode [] st

theorem callBody_nGet (env : Env) (m : String) (kwargs : List (String × Nat)) (st : St) :
    (callBody env m kwargs st).2.nGet = st.nGet + 1 := by
  unfold callBody doGet doGetPersisted doRefresh
  dsimp only
  split_ifs <;> rfl

/-- A concrete entry used to instantiate the theorems. -/
def wEntry : Entry :=
  { name := "zeros", pmode := "default", container := "dataframe",
    selfAttrs := fun _ => none, gui := none }

/-- A concrete source whose replica carries `ttl = 10`, `timestamp = 0`. -/
def wSource (n : Nat) : Source :=
  { sid := n, hasBeenPersisted := true,
    metadata := { ttl := some 10, timestamp := 0 },
    attrs := fun _ => none, getitem := fun _ => none, iterItems := [],
    guiAttr := none }

/-- Environment at `now = 100`: elapsed `100` exceeds `ttl = 10`. -/
def wEnvStale : Env :=
  { mkSource := fun n _ => wSource n,
    get_persisted := fun s => { s with sid := 100 + s.sid },
    refresh := fun s => { s with sid := 200 + s.sid },
    now := 100 }

/-- Environment at `now = 5`: elapsed `5` is within `ttl = 10`. -/
def wEnvFresh : Env :=
  { mkSource := fun n _ => wSource n,
    get_persisted := fun s => { s with sid := 100 + s.sid },
    refresh := fun s => { s with sid := 200 + s.sid },
    now := 5 }

/-- Environment whose persisted replica has `ttl = None`. -/
def wEnvNoTtl : Env :=
  { mkSource := fun n _ => wSource n,
    get_persisted := fun s =>
      { s with sid := 100 + s.sid, metadata := { ttl := none, timestamp := 0 } },
    refresh := fun s => { s with sid := 200 + s.sid },
    now := 100 }

/-- C1: with a valid override, an effective mode that is neither `never` nor
`always`, a live source that has a persisted replica, and a truthy replica
`ttl`: if `ttl < now - timestamp` the persisted replica is returned as-is
(trace shows no refresh), and otherwise the store's refresh is triggered and
the refreshed replica is returned. -/
theorem call_ttl_branches (env : Env) (e : Entry) (p0 : Option String)
    (kwargs : List (String × Nat)) (st : St)
    (hv : validOverrideB p0 = true)
    (hm1 : effMode e p0 ≠ "never") (hm2 : effMode e p0 ≠ "always")
    (hp : (env.mkSource st.nGet kwargs).hasBeenPersisted = true)
    (ht : ttlFalsy (env.get_persisted (env.mkSource st.nGet kwargs)).metadata.ttl = false) :
    ((env.get_persisted (env.mkSource st.nGet kwargs)).metadata.ttl.getD 0 <
        env.now - (env.get_persisted (env.mkSource st.nGet kwargs)).metadata.timestamp →
      Entry.call env e p0 kwargs st =
        (Except.ok (env.get_persisted (env.mkSource st.nGet kwargs)),
         { nGet := st.nGet + 1,
           events := st.events ++ [Event.getEv kwargs,
             Event.getPersistedEv (env.mkSource st.nGet kwargs).sid] })) ∧
    (¬ ((env.get_persisted (env.mkSource st.nGet kwargs)).metadata.ttl.getD 0 <
        env.now - (env.get_persisted (env.mkSource st.nGet kwargs)).metadata.timestamp) →
      Entry.call env e p0 kwargs st =
        (Except.ok (env.refresh (env.get_persisted (env.mkSource st.nGet kwargs))),
         { nGet := st.nGet + 1,
           events := st.events ++ [Event.getEv kwargs,
             Event.getPersistedEv (env.mkSource st.nGet kwargs).sid,
             Event.refreshEv (env.get_persisted (env.mkSource st.nGet kwargs)).sid] })) := by
  rw [call_valid env e p0 kwargs st hv]
  constructor
  · intro hlt
    simp [callBody, doGet, doGetPersisted, hp, hm1, hm2, ht, hlt]
  · intro hge
    simp [callBody, doGet, doGetPersisted, doRefresh, hp, hm1, hm2, ht, hge]

/-- C2: an override outside `{always, never, default}` raises `ValueError`
(the spec's `InvalidArgument`) with a message naming the offending value,
before `get` is invoked and with an empty event delta: the persistence store
is never consulted and the state is unchanged. -/
theorem call_invalid_override (env : Env) (e : Entry) (p : String)
    (kwargs : List (String × Nat)) (st : St)
    (h : ¬ (p = "always" ∨ p = "never" ∨ p = "default")) :
    Entry.call env e (some p) kwargs st =
      (Except.error (PyErr.valueError ("Persist value (" ++ p ++ ") not understood")), st) := by
  simp [Entry.call, h]

/-- C3: when the effective mode is `never`, or the live source reports no
persisted replica, `__call__` returns the live source built by `get(**kwargs)`
unchanged, and the trace shows exactly one `get` and no `get_persisted` or
`refresh`. -/
theorem call_never_or_unpersisted (env : Env) (e : Entry) (p0 : Option String)
    (kwargs : List (String × Nat)) (st : St)
    (hv : validOverrideB p0 = true)
    (h : effMode e p0 = "never" ∨ (env.mkSource st.nGet kwargs).hasBeenPersisted = false) :
    Entry.call env e p0 kwargs st =
      (Except.ok (env.mkSource st.nGet kwargs),
       { nGet := st.nGet + 1, events := st.events ++ [Event.getEv kwargs] }) := by
  rw [call_valid env e p0 kwargs st hv]
  rcases h with h | h
  · simp [callBody, doGet, h]
  · simp [callBody, doGet, h]

/-- C4: effective mode `always` with a persisted replica returns the result
of `get_persisted` unchanged, for every `ttl` and `timestamp`, and the trace
shows no refresh. -/
theorem call_always (env : Env) (e : Entry) (p0 : Option String)
    (kwargs : List (String × Nat)) (st : St)
    (hv : validOverrideB p0 = true)
    (hm : effMode e p0 = "always")
    (hp : (env.mkSource st.nGet kwargs).hasBeenPersisted = true) :
    Entry.call env e p0 kwargs st =
      (Except.ok (env.get_persisted (env.mkSource st.nGet kwargs)),
       { nGet := st.nGet + 1,
         events := st.events ++ [Event.getEv kwargs,
           Event.getPersistedEv (env.mkSource st.nGet kwargs).sid] }) := by
  rw [call_valid env e p0 kwargs st hv]
  simp [callBody, doGet, doGetPersisted, hp, hm]

/-- C5: any effective mode other than `never`, with a persisted replica whose
`ttl` is falsy (`None` or `0`), returns the persisted replica unchanged, with
no refresh in the trace. -/
theorem call_falsy_ttl (env : Env) (e : Entry) (p0 : Option String)
    (kwargs : List (String × Nat)) (st : St)
    (hv : validOverrideB p0 = true)
    (hm : effMode e p0 ≠ "never")
    (hp : (env.mkSource st.nGet kwargs).hasBeenPersisted = true)
    (ht : ttlFalsy (env.get_persisted (env.mkSource st.nGet kwargs)).metadata.ttl = true) :
    Entry.call env e p0 kwargs st =
      (Except.ok (env.get_persisted (env.mkSource st.nGet kwargs)),
       { nGet := st.nGet + 1,
         events := st.events ++ [Event.getEv kwargs,
           Event.getPersistedEv (env.mkSource st.nGet kwargs).sid] }) := by
  rw [call_valid env e p0 kwargs st hv]
  simp [callBody, doGet, doGetPersisted, hp, hm, ht]

/-- C1 witness: both TTL branches exercised at concrete inputs. -/
theorem call_ttl_branches_witness :
    (Entry.call wEnvStale wEntry (some "default") [] { nGet := 0, events := [] } =
      (Except.ok (wEnvStale.get_persisted (wEnvStale.mkSource 0 [])),
       { nGet := 1, events := [Event.getEv [], Event.getPersistedEv 0] })) ∧
    (Entry.call wEnvFresh wEntry (some "default") [] { nGet := 0, events := [] } =
      (Except.ok (wEnvFresh.refresh (wEnvFresh.get_persisted (wEnvFresh.mkSource 0 []))),
       { nGet := 1,
         events := [Event.getEv [], Event.getPersistedEv 0, Event.refreshEv 100] })) :=
  ⟨(call_ttl_branches wEnvStale wEntry (some "default") [] ⟨0, []⟩ (by decide) (by decide)
      (by decide) rfl rfl).1 (by decide),
   (call_ttl_branches wEnvFresh wEntry (some "default") [] ⟨0, []⟩ (by decide) (by decide)
      (by decide) rfl rfl).2 (by decide)⟩

/-- C2 witness: the override `"sometimes"` is rejected with state unchanged. -/
theorem call_invalid_override_witness :
    Entry.call wEnvStale wEntry (some "sometimes") [] { nGet := 0, events := [] } =
      (Except.error (PyErr.valueError ("Persist value (" ++ "sometimes" ++ ") not understood")),
       { nGet := 0, events := [] }) :=
  call_invalid_override wEnvStale wEntry "sometimes" [] ⟨0, []⟩ (by decide)

/-- C3 witness: mode `never` with an existing persisted replica returns the
live source and never consults the store. -/
theorem call_never_or_unpersisted_witness :
    Entry.call wEnvStale wEntry (some "never") [] { nGet := 0, events := [] } =
      (Except.ok (wEnvStale.mkSource 0 []), { nGet := 1, events := [Event.getEv []] }) :=
  call_never_or_unpersisted wEnvStale wEntry (some "never") [] ⟨0, []⟩ (by decide)
    (Or.inl (by decide))

/-- C4 witness: mode `always` returns the persisted replica without refresh
even though the replica is long past its TTL. -/
theorem call_always_witness :
    Entry.call wEnvStale wEntry (some "always") [] { nGet := 0, events := [] } =
      (Except.ok (wEnvStale.get_persisted (wEnvStale.mkSource 0 [])),
       { nGet := 1, events := [Event.getEv [], Event.getPersistedEv 0] }) :=
  call_always wEnvStale wEntry (some "always") [] ⟨0, []⟩ (by decide) (by decide) rfl

/-- C5 witness: no override, entry mode `default`, replica `ttl = None`: the
persisted replica is returned without refresh. -/
theorem call_falsy_ttl_witness :
    Entry.call wEnvNoTtl wEntry none [] { nGet := 0, events := [] } =
      (Except.ok (wEnvNoTtl.get_persisted (wEnvNoTtl.mkSource 0 [])),
       { nGet := 1, events := [Event.getEv [], Event.getPersistedEv 0] }) :=
  call_falsy_ttl wEnvNoTtl wEntry none [] ⟨0, []⟩ (by decide) (by decide) rfl rfl

/-- Environment whose sources record their allocation index in an attribute,
so that rebuilding versus reuse is observable. -/
def wEnvCount : Env :=
  { mkSource := fun n _ =>
      { sid := n, hasBeenPersisted := false,
        metadata := { ttl := none, timestamp := 0 },
        attrs := fun a => if a = "nbuild" then some n else none,
        getitem := fun _ => none, iterItems := [], guiAttr := none },
    get_persisted := fun s => s, refresh := fun s => s, now := 0 }

/-- C6 counterexample: two successive forwarded attribute accesses each build
a fresh default source (`get` runs twice, and the two accesses observe two
distinct sources, allocation 0 then allocation 1), refuting that the default
source is built at most once and reused. -/
theorem default_source_not_cached_cex :
    (Entry.getattrE wEnvCount wEntry "nbuild" { nGet := 0, events := [] }).1 =
      Except.ok 0 ∧
    (Entry.getattrE wEnvCount wEntry "nbuild"
       (Entry.getattrE wEnvCount wEntry "nbuild" { nGet := 0, events := [] }).2).1 =
      Except.ok 1 ∧
    (Entry.getattrE wEnvCount wEntry "nbuild"
       (Entry.getattrE wEnvCount wEntry "nbuild" { nGet := 0, events := [] }).2).2.nGet = 2 := by
  exact ⟨rfl, rfl, rfl⟩

/-- C6 amended: the default source is not cached — every
`_get_default_source` call invokes `get` again (the allocation counter grows
by one on each access). The GUI cache, by contrast, behaves as follows: an
access finding the `_gui` slot set returns the cached handle (with `visible`
set) without building any source; a first access whose `hasattr` probe builds
a default source that does not expose `_gui` constructs `EntryGUI` once,
caches it in the slot, and returns it — so on this normal path the GUI is
created at most once and repeated accesses return the same handle; but when
the probed default source does expose `_gui`, the entry caches nothing (its
`_gui` slot stays unset and the entry is returned unchanged). -/
theorem gui_cached_default_source_rebuilt (env : Env) (e : Entry) (st : St) (f1 : Nat) :
    (Entry.getDefaultSource env e st).2.nGet = st.nGet + 1 ∧
    (∀ g, e.gui = some g →
      Entry.guiProp env e f1 st =
        (Except.ok { g with visible := true },
         { e with gui := some { g with visible := true } }, st)) ∧
    (e.gui = none →
      ∀ ds st1, Entry.getDefaultSource env e st = (Except.ok ds, st1) →
        ds.guiAttr = none →
          Entry.guiProp env e f1 st =
            (Except.ok { id := f1, visible := true },
             { e with gui := some { id := f1, visible := true } }, st1)) ∧
    (e.gui = none →
      ∀ ds st1, Entry.getDefaultSource env e st = (Except.ok ds, st1) →
        ds.guiAttr ≠ none →
          (Entry.guiProp env e f1 st).2.1 = e) := by
  refine ⟨callBody_nGet env e.pmode [] st, ?_, ?_, ?_⟩
  · intro g hg
    simp [Entry.guiProp, hg]
  · intro hg ds st1 hds hga
    simp [Entry.guiProp, hg, hds, hga]
  · intro hg ds st1 hds hga
    cases hga2 : ds.guiAttr with
    | none => exact absurd hga2 hga
    | some g1 =>
      simp only [Entry.guiProp, hg, hds, hga2]
      cases h2 : (Entry.getDefaultSource env e st1).1 with
      | error err => simp [h2]
      | ok ds2 =>
        cases hg2 : ds2.guiAttr with
        | none => simp [h2, hg2]
        | some g2 =>
          cases h3 : (Entry.getDefaultSource env e (Entry.getDefaultSource env e st1).2).1 with
          | error err => simp [h2, hg2, h3]
          | ok ds3 =>
            cases hg3 : ds3.guiAttr with
            | none => simp [h2, hg2, h3, hg3]
            | some g3 => simp [h2, hg2, h3, hg3]

/-- C6 amended witness: a first `gui` access (slot unset, probed source
without `_gui`) builds one default source and caches `EntryGUI` with identity
7; a later access finding the slot set returns the same handle, visible, with
no source built. -/
theorem gui_cached_default_source_rebuilt_witness :
    (Entry.guiProp wEnvCount wEntry 7 { nGet := 0, events := [] } =
      (Except.ok { id := 7, visible := true },
       { wEntry with gui := some { id := 7, visible := true } },
       { nGet := 1, events := [Event.getEv []] })) ∧
    (Entry.guiProp wEnvCount { wEntry with gui := some { id := 7, visible := false } } 9
        { nGet := 0, events := [] } =
      (Except.ok { id := 7, visible := true },
       { wEntry with gui := some { id := 7, visible := true } },
       { nGet := 0, events := [] })) :=
  ⟨(gui_cached_default_source_rebuilt wEnvCount wEntry ⟨0, []⟩ 7).2.2.1 rfl
     (wEnvCount.mkSource 0 []) { nGet := 1, events := [Event.getEv []] } rfl rfl,
   (gui_cached_default_source_rebuilt wEnvCount
       { wEntry with gui := some { id := 7, visible := false } } ⟨0, []⟩ 9).2.1
     { id := 7, visible := false } rfl⟩

/-- An inner object that distinguishes the key `3` from the one-tuple `(3,)`. -/
def wInner : Obj :=
  Obj.node (fun it =>
    match it with
    | Item.key 3 => some (Obj.atom 0)
    | Item.tup [3] => some (Obj.atom 1)
    | _ => none)

/-- Environment whose default source maps the key `7` to `wInner`. -/
def wEnvItems : Env :=
  { mkSource := fun n _ =>
      { sid := n, hasBeenPersisted := false,
        metadata := { ttl := none, timestamp := 0 },
        attrs := fun _ => none,
        getitem := fun it => match it with | Item.key 7 => some wInner | _ => none,
        iterItems := [], guiAttr := none },
    get_persisted := fun s => s, refresh := fun s => s, now := 0 }

/-- C7 counterexample: `entry[(7, 3)]` yields `Obj.atom 1` while
`entry[7][3]` yields `Obj.atom 0`, because the remaining keys are passed to
the intermediate object as the tuple `(3,)`, not as the bare key `3`; the two
accesses are therefore not equivalent. -/
theorem getitem_tuple_pair_cex :
    (Entry.getitemE wEnvItems wEntry (Item.tup [7, 3]) { nGet := 0, events := [] }).1 =
      Except.ok (Obj.atom 1) ∧
    (∃ o, (Entry.getitemE wEnvItems wEntry (Item.key 7) { nGet := 0, events := [] }).1 =
        Except.ok o ∧ o.getitem (Item.key 3) = some (Obj.atom 0)) ∧
    (Obj.atom 1 : Obj) ≠ Obj.atom 0 := by
  refine ⟨rfl, ⟨wInner, rfl, rfl⟩, by simp⟩

/-- C7 amended: `entry[(k0,)]` is equivalent to `entry[k0]`; for a multi-key
tuple the first key is applied to the default source and the remaining keys
are passed, as one tuple, to the intermediate object's own item access (so
`entry[(k0, k1)]` equals `ds[k0][(k1,)]`, which coincides with
`entry[k0][k1]` only when the intermediate does not distinguish a one-tuple
from its key). -/
theorem getitem_tuple_semantics (env : Env) (e : Entry) (st : St) (k k2 : Nat)
    (rest : List Nat) :
    Entry.getitemE env e (Item.tup [k]) st = Entry.getitemE env e (Item.key k) st ∧
    ∀ o, (Entry.getitemE env e (Item.key k) st).1 = Except.ok o →
      (Entry.getitemE env e (Item.tup (k :: k2 :: rest)) st).1 =
        (match o.getitem (Item.tup (k2 :: rest)) with
         | some o2 => Except.ok o2
         | none => Except.error PyErr.keyError) := by
  constructor
  · rfl
  · intro o h
    obtain ⟨ds, hds⟩ := getDefaultSource_ok env e st
    simp [Entry.getitemE, Entry.getitemSingle, hds] at h ⊢
    cases hg : ds.getitem (Item.key k) with
    | none => simp [hg] at h
    | some o1 =>
      simp [hg] at h ⊢
      subst h
      cases ho : o1.getitem (Item.tup (k2 :: rest)) <;> simp [ho]

/-- C7 witness: the multi-key clause instantiated at `entry[(7, 3)]`. -/
theorem getitem_tuple_semantics_witness :
    (Entry.getitemE wEnvItems wEntry (Item.tup [7, 3]) { nGet := 0, events := [] }).1 =
      (match wInner.getitem (Item.tup [3]) with
       | some o2 => Except.ok o2
       | none => Except.error PyErr.keyError) :=
  (getitem_tuple_semantics wEnvItems wEntry ⟨0, []⟩ 7 3 []).2 wInner rfl

/-- The same entry declared as a nested catalog. -/
def wEntryCat : Entry := { wEntry with container := "catalog" }

/-- C8 counterexample: iterating a non-catalog entry raises `ValueError`
whose message is `Cannot iterate a catalog entry` (capital `C`), which is not
the claimed message `cannot iterate a catalog entry`. -/
theorem iter_message_cex :
    Entry.iterE wEnvItems wEntry { nGet := 0, events := [] } =
      (Except.error (PyErr.valueError "Cannot iterate a catalog entry"),
       { nGet := 0, events := [] }) ∧
    "Cannot iterate a catalog entry" ≠ "cannot iterate a catalog entry" := by
  exact ⟨rfl, by decide⟩

/-- C8 amended: iteration is permitted exactly when the entry's container
kind is `catalog`, forwarding to the default source's iterator; otherwise it
raises `ValueError` (the spec's `InvalidOperation`) with message
`Cannot iterate a catalog entry`, the state unchanged. -/
theorem iter_catalog_only (env : Env) (e : Entry) (st : St) :
    (e.container ≠ "catalog" →
      Entry.iterE env e st =
        (Except.error (PyErr.valueError "Cannot iterate a catalog entry"), st)) ∧
    (e.container = "catalog" →
      Entry.iterE env e st =
        (Except.map Source.iterItems (Entry.getDefaultSource env e st).1,
         (Entry.getDefaultSource env e st).2)) := by
  constructor
  · intro h
    simp [Entry.iterE, h]
  · intro h
    cases hds : (Entry.getDefaultSource env e st).1 <;>
      simp [Entry.iterE, h, hds, Except.map]

/-- C8 witness: both directions at concrete entries. -/
theorem iter_catalog_only_witness :
    (Entry.iterE wEnvItems wEntry { nGet := 0, events := [] } =
      (Except.error (PyErr.valueError "Cannot iterate a catalog entry"),
       { nGet := 0, events := [] })) ∧
    (Entry.iterE wEnvItems wEntryCat { nGet := 0, events := [] } =
      (Except.ok [], { nGet := 1, events := [Event.getEv []] })) :=
  ⟨(iter_catalog_only wEnvItems wEntry ⟨0, []⟩).1 (by decide),
   (iter_catalog_only wEnvItems wEntryCat ⟨0, []⟩).2 rfl⟩

/-- An entry that defines the attribute `name` itself. -/
def wEntryAttr : Entry :=
  { wEntry with selfAttrs := fun a => if a = "name" then some 5 else none }

/-- C9: a name defined on the entry is returned directly with no forwarding
(state untouched, no source built); a name absent from the entry is forwarded
to the default source, and a miss there raises `AttributeError` (the spec's
`AttributeNotFound`), propagated unchanged. -/
theorem getattr_forwarding (env : Env) (e : Entry) (attr : String) (st : St) :
    (∀ v, e.selfAttrs attr = some v → Entry.getattrE env e attr st = (Except.ok v, st)) ∧
    (e.selfAttrs attr = none →
      ∀ ds st1, Entry.getDefaultSource env e st = (Except.ok ds, st1) →
        Entry.getattrE env e attr st =
          ((match ds.attrs attr with
            | some v => Except.ok v
            | none => Except.error (PyErr.attributeError attr)), st1)) := by
  constructor
  · intro v h
    simp [Entry.getattrE, h]
  · intro h ds st1 hds
    cases hda : ds.attrs attr <;> simp [Entry.getattrE, h, hds, hda]

/-- C9 witness: the entry-defined name `name` is never forwarded; the absent
name `missing` is forwarded and raises `AttributeError`. -/
theorem getattr_forwarding_witness :
    (Entry.getattrE wEnvCount wEntryAttr "name" { nGet := 0, events := [] } =
      (Except.ok 5, { nGet := 0, events := [] })) ∧
    (Entry.getattrE wEnvCount wEntryAttr "missing" { nGet := 0, events := [] } =
      (Except.error (PyErr.attributeError "missing"),
       { nGet := 1, events := [Event.getEv []] })) :=
  ⟨(getattr_forwarding wEnvCount wEntryAttr "name" ⟨0, []⟩).1 5 rfl,
   (getattr_forwarding wEnvCount wEntryAttr "missing" ⟨0, []⟩).2 rfl
     (wEnvCount.mkSource 0 []) { nGet := 1, events := [Event.getEv []] } rfl⟩

/-- C10: the `has_been_persisted` property invokes `get` once with no user
parameters and returns the fresh live source's flag; its trace contains no
`get_persisted` or `refresh`, and it is entirely independent of the entry's
persistence mode (its declared keyword parameters are unreachable, a property
getter receiving only `self`). -/
theorem has_been_persisted_property (env : Env) (e : Entry) (st : St) :
    Entry.hasBeenPersistedProp env e st =
      ((env.mkSource st.nGet []).hasBeenPersisted,
       { nGet := st.nGet + 1, events := st.events ++ [Event.getEv []] }) ∧
    ∀ p, Entry.hasBeenPersistedProp env { e with pmode := p } st =
      Entry.hasBeenPersistedProp env e st :=
  ⟨rfl, fun _ => rfl⟩

end Intake
